import Mathlib

/-!
Verification of the chat relay server (src/server/index.js).

The server is a single Express handler plus two trivial endpoints. We embed
it shallowly: JavaScript values appearing in request bodies become `JSVal`,
the module-level mutable state (`apiKeys`, `currentApiKeyIndex`, the `genAI`
client identified by the key it was built with) becomes `ServerState`, and
the two asynchronous backend sends become `Except String String` oracles
(error message on throw, response text on success). The handler returns the
next state, the HTTP response, and the trace of backend `sendMessage` calls
actually issued, so that claims about which credential, model and history
each call used are statable.
-/

/-- A JavaScript value, as far as the request-body fields can range over the
JSON-decodable shapes the handler touches (plus `undefined` for an absent
field). Numbers are modelled as integers; the handler never does arithmetic
on them, only truthiness tests. -/
inductive JSVal where
  | undef
  | null
  | bool (b : Bool)
  | num (n : Int)
  | str (s : String)
deriving DecidableEq, Repr

/-- JavaScript truthiness for the modelled values. -/
def jsTruthy : JSVal → Bool
  | .undef => false
  | .null => false
  | .bool b => b
  | .num n => n != 0
  | .str s => s != ""

/-- JavaScript `a || b`: the left operand when truthy, else the right. -/
def jsOr (a b : JSVal) : JSVal := if jsTruthy a then a else b

/-- Whether the value is a string (strings are the only modelled values
carrying a `.trim` method). -/
def JSVal.isStr : JSVal → Bool
  | .str _ => true
  | _ => false

/-- Whitespace predicate used by `jsTrim`; `Char.isWhitespace` covers the
characters relevant to the traffic the server sees (space, tab, newline,
carriage return). -/
def isJsWs (c : Char) : Bool := c.isWhitespace

/-- JavaScript `String.prototype.trim`: strip whitespace from both ends. -/
def jsTrim (s : String) : String :=
  ⟨((s.data.dropWhile isJsWs).reverse.dropWhile isJsWs).reverse⟩

/-- Whether `pat` occurs at the head of `hay`. -/
def hasPre : List Char → List Char → Bool
  | [], _ => true
  | _ :: _, [] => false
  | a :: as, b :: bs => a == b && hasPre as bs

/-- Whether `pat` occurs anywhere in `hay` (substring occurrence on the
character lists). -/
def subOccurs (pat : List Char) : List Char → Bool
  | [] => pat.isEmpty
  | c :: rest => hasPre pat (c :: rest) || subOccurs pat rest

/-- JavaScript `s.includes(pat)`: case-sensitive substring search. -/
def strIncludes (s pat : String) : Bool := subOccurs pat.data s.data

/-- One caller-supplied history turn, before sanitization. An absent field
is `JSVal.undef`. -/
structure JSTurn where
  role : JSVal
  content : JSVal
  text : JSVal
deriving DecidableEq, Repr

/-- One sanitized turn as handed to `startChat`: the normalized role string
and the selected `parts[0].text` value. -/
structure MappedTurn where
  role : String
  text : JSVal
deriving DecidableEq, Repr

/-- Line 81: `msg.role === 'user' ? 'user' : 'model'`. -/
def normRole (r : JSVal) : String := if r == .str "user" then "user" else "model"

/-- Line 82: `msg.content || msg.text || ''`. -/
def selectText (t : JSTurn) : JSVal := jsOr t.content (jsOr t.text (.str ""))

/-- Lines 80-82: the `history.map(...)` step. -/
def mapTurn (t : JSTurn) : MappedTurn := ⟨normRole t.role, selectText t⟩

/-- The map phase of `formattedHistory`. -/
def formatMap (h : List JSTurn) : List MappedTurn := h.map mapTurn

/-- Calling `.trim()` on the selected text value: defined on strings, a
TypeError on anything else (caught by the handler's outer catch). -/
def trimJS : JSVal → Except String String
  | .str s => .ok (jsTrim s)
  | _ => .error "msg.parts[0].text.trim is not a function"

/-- Line 83: `.filter(msg => msg.parts[0].text.trim() !== '')`. The filter
predicate throws on the first turn whose text value is not a string. -/
def filterHistory : List MappedTurn → Except String (List MappedTurn)
  | [] => .ok []
  | m :: rest => do
    let t ← trimJS m.text
    let tail ← filterHistory rest
    if t ≠ "" then pure (m :: tail) else pure tail

/-- Lines 79-90 as far as the history content goes: an empty history and a
history sanitized to empty both start the chat with no prior turns. -/
def sanitizeHistory (h : List JSTurn) : Except String (List MappedTurn) :=
  filterHistory (formatMap h)

/-- The module-level mutable state of the server: the credential pool
(immutable after startup), the rotating cursor, and the key the current
`genAI` client was constructed with. -/
structure ServerState where
  apiKeys : List String
  currentApiKeyIndex : Nat
  genAIKey : String
deriving DecidableEq, Repr

/-- Lines 16-18 and 30: collect `[GEMINI_API_KEY, GEMINI_API_KEY_2]`,
`.filter(Boolean)` (drops `undefined` and the empty string), cursor 0, and
`new GoogleGenerativeAI(apiKeys[0] || '')`. -/
def initState (key1 key2 : Option String) : ServerState :=
  let keys := ([key1, key2].map (fun o => o.getD "")).filter (fun s => s ≠ "")
  { apiKeys := keys, currentApiKeyIndex := 0, genAIKey := keys.headD "" }

/-- Lines 36-42: advance the cursor modulo the pool size and rebuild the
client, but only when the pool has more than one entry. -/
def switchApiKey (st : ServerState) : ServerState :=
  if st.apiKeys.length > 1 then
    let i := (st.currentApiKeyIndex + 1) % st.apiKeys.length
    { st with currentApiKeyIndex := i, genAIKey := st.apiKeys.getD i "" }
  else st

/-- One backend `sendMessage` call as issued: which credential the client
held, which model identifier, which sanitized history the session was
opened with, and the message sent. -/
structure BackendCall where
  apiKey : String
  modelName : String
  history : List MappedTurn
  message : JSVal
deriving DecidableEq, Repr

/-- The JSON response of `POST /api/chat`, by shape. -/
inductive ChatResponse where
  | validationFail
  | configFail
  | ok (text : String)
  | backendFail (error : String) (details : String)
deriving DecidableEq, Repr

/-- The HTTP status each response shape is sent with. -/
def statusOf : ChatResponse → Nat
  | .validationFail => 400
  | .configFail => 500
  | .ok _ => 200
  | .backendFail _ _ => 500

/-- The `success` flag of each response shape. -/
def successOf : ChatResponse → Bool
  | .ok _ => true
  | _ => false

/-- Lines 65-75: the construction-time model fallback chain.
`constructOk` says whether `getGenerativeModel` succeeds for a name; the
last fallback has no surrounding try of its own. -/
def selectModel (constructOk : String → Bool) : String :=
  if constructOk "gemini-2.5-flash" then "gemini-2.5-flash"
  else if constructOk "gemini-2.5-pro" then "gemini-2.5-pro"
  else "gemini-2.0-flash"

/-- Lines 106-113: map the raw error message to the user-facing
`errorMessage` by case-sensitive substring search, first match wins. -/
def errorMessageOf (e : String) : String :=
  if strIncludes e "API_KEY" then
    "Invalid or missing API key. Please check your GEMINI_API_KEY in server/.env"
  else if strIncludes e "quota" || strIncludes e "429" then
    "API quota exceeded. Please try again later."
  else if strIncludes e "safety" then
    "The message was blocked by safety filters. Please try rephrasing."
  else "Failed to get response from AI"

/-- Line 116: the retry guard on the raw message and the pool size. -/
def retryGuard (e : String) (st : ServerState) : Bool :=
  (strIncludes e "quota" || strIncludes e "429" || strIncludes e "API_KEY")
    && st.apiKeys.length > 1

/-- Lines 101-140: the catch block. Classify the raw message, possibly
switch key and retry once with the primary model and a fresh session, and
fall through to the 500 response carrying the original classification and
raw message when no retry happens or the retry throws. `retryOutcome` is
the retry send's result; `calls` the backend calls already issued. -/
def handleBackendError (st : ServerState) (message : JSVal) (e : String)
    (constructOk : String → Bool) (retryOutcome : Except String String)
    (calls : List BackendCall) : ServerState × ChatResponse × List BackendCall :=
  let errorMessage := errorMessageOf e
  if retryGuard e st then
    let st1 := switchApiKey st
    if constructOk "gemini-2.5-flash" then
      let call : BackendCall :=
        { apiKey := st1.genAIKey, modelName := "gemini-2.5-flash",
          history := [], message := message }
      match retryOutcome with
      | .ok t => (st1, .ok t, calls ++ [call])
      | .error _ => (st1, .backendFail errorMessage e, calls ++ [call])
    else (st1, .backendFail errorMessage e, calls)
  else (st, .backendFail errorMessage e, calls)

/-- Lines 45-141: the `POST /api/chat` handler. `firstOutcome` and
`retryOutcome` are the results of the first and the retry `sendMessage`
(error message on throw, text on success). Returns the state left for the
next request, the response, and the trace of backend calls issued. -/
def handleChat (st : ServerState) (message : JSVal) (history : List JSTurn)
    (constructOk : String → Bool)
    (firstOutcome retryOutcome : Except String String) :
    ServerState × ChatResponse × List BackendCall :=
  if !(jsTruthy message) then (st, .validationFail, [])
  else if st.apiKeys.length == 0 then (st, .configFail, [])
  else
    let modelName := selectModel constructOk
    match sanitizeHistory history with
    | .error e => handleBackendError st message e constructOk retryOutcome []
    | .ok hist =>
      let call : BackendCall :=
        { apiKey := st.genAIKey, modelName := modelName,
          history := hist, message := message }
      match firstOutcome with
      | .ok text => (st, .ok text, [call])
      | .error e => handleBackendError st message e constructOk retryOutcome [call]

/-- The JSON response of `GET /api/models`, by shape. -/
inductive ModelsResponse where
  | configFail
  | ok (models : List String)
  | fetchFail (details : String)
deriving DecidableEq, Repr

/-- The HTTP status of each models-endpoint response shape. -/
def modelsStatus : ModelsResponse → Nat
  | .configFail => 500
  | .ok _ => 200
  | .fetchFail _ => 500

/-- The `success` flag of each models-endpoint response shape. -/
def modelsSuccess : ModelsResponse → Bool
  | .ok _ => true
  | _ => false

/-- An environment variable as a JavaScript value: absent is `undefined`. -/
def envVal : Option String → JSVal
  | none => .undef
  | some s => .str s

/-- Lines 144-168: the `GET /api/models` handler. It reads
`process.env.GEMINI_API_KEY` directly (the module state `st` is in scope
but unused, exactly as in the source). `fetchOutcome` is the list-models
fetch result, with `data.models` possibly absent. Returns the response and
the key the fetch URL carried, `none` when no fetch was issued. -/
def handleModels (envPrimary : Option String) (_st : ServerState)
    (fetchOutcome : Except String (Option (List String))) :
    ModelsResponse × Option String :=
  if !(jsTruthy (envVal envPrimary)) then (.configFail, none)
  else
    match fetchOutcome with
    | .ok data => (.ok (data.getD []), some (envPrimary.getD ""))
    | .error e => (.fetchFail e, some (envPrimary.getD ""))

/-! ## Spec-side definitions, written from the claims for refinement -/

/-- The error taxonomy for backend-originated failures, as the spec names
the classes. -/
inductive ErrorClass where
  | invalidCredential
  | quotaExceeded
  | contentBlocked
  | unknownBackend
deriving DecidableEq, Repr

/-- Classification exactly as the claim words it: case-sensitive substring
search on the raw message, first match wins, in the order API_KEY, then
quota or 429, then safety, otherwise unknown. -/
def classifySpec (e : String) : ErrorClass :=
  if strIncludes e "API_KEY" then .invalidCredential
  else if strIncludes e "quota" || strIncludes e "429" then .quotaExceeded
  else if strIncludes e "safety" then .contentBlocked
  else .unknownBackend

/-- The stable user-facing message each class is rendered as. -/
def classMessage : ErrorClass → String
  | .invalidCredential =>
    "Invalid or missing API key. Please check your GEMINI_API_KEY in server/.env"
  | .quotaExceeded => "API quota exceeded. Please try again later."
  | .contentBlocked => "The message was blocked by safety filters. Please try rephrasing."
  | .unknownBackend => "Failed to get response from AI"

/-- The retry-eligible classes per the spec: invalid credential and quota
exceeded. -/
def retryEligible : ErrorClass → Bool
  | .invalidCredential => true
  | .quotaExceeded => true
  | _ => false

/-- Read the string out of a string value, empty otherwise. -/
def textOrEmpty : JSVal → String
  | .str s => s
  | _ => ""

/-- History sanitization as the claim words it: normalize each role (user
maps to user, anything else to model), drop turns whose text is empty
after trimming, keep the caller's order. -/
def specSanitize (h : List JSTurn) : List MappedTurn :=
  (h.map (fun t =>
    ⟨if t.role == .str "user" then "user" else "model", selectText t⟩)).filter
    (fun m => jsTrim (textOrEmpty m.text) != "")

/-! ## Helper lemmas -/

theorem errMsg_eq_classMessage (e : String) :
    errorMessageOf e = classMessage (classifySpec e) := by
  by_cases h1 : strIncludes e "API_KEY" = true <;>
  by_cases h2 : strIncludes e "quota" = true <;>
  by_cases h3 : strIncludes e "429" = true <;>
  by_cases h4 : strIncludes e "safety" = true <;>
  simp [errorMessageOf, classifySpec, classMessage, h1, h2, h3, h4]

theorem retryGuard_eq (e : String) (st : ServerState) :
    retryGuard e st =
      (retryEligible (classifySpec e) && decide (st.apiKeys.length > 1)) := by
  by_cases h1 : strIncludes e "API_KEY" = true <;>
  by_cases h2 : strIncludes e "quota" = true <;>
  by_cases h3 : strIncludes e "429" = true <;>
  by_cases h4 : strIncludes e "safety" = true <;>
  simp [retryGuard, classifySpec, retryEligible, h1, h2, h3, h4]

theorem retryEligible_iff (c : ErrorClass) :
    retryEligible c = true ↔ (c = .invalidCredential ∨ c = .quotaExceeded) := by
  cases c <;> simp [retryEligible]

theorem sanitize_ok_of_strings (h : List JSTurn)
    (hstr : ∀ t ∈ h, (selectText t).isStr = true) :
    sanitizeHistory h = .ok (specSanitize h) := by
  induction h with
  | nil => rfl
  | cons t rest ih =>
    have ht : (selectText t).isStr = true := hstr t (by simp)
    have hrest := ih (fun x hx => hstr x (by simp [hx]))
    obtain ⟨s, hsel⟩ : ∃ s, selectText t = .str s := by
      cases hv : selectText t <;> simp [hv, JSVal.isStr] at ht ⊢
    simp only [sanitizeHistory, formatMap] at hrest
    simp only [sanitizeHistory, formatMap, List.map_cons, filterHistory,
      mapTurn, hsel, trimJS]
    rw [hrest]
    by_cases he : jsTrim s = "" <;>
      simp [he, specSanitize, List.filter_cons, normRole, textOrEmpty, hsel,
        mapTurn, bind, Except.bind, pure, Except.pure]

theorem handleChat_to_error (st : ServerState) (m : String) (hist : List JSTurn)
    (hs : List MappedTurn) (co : String → Bool) (e : String)
    (ro : Except String String) (hm : m ≠ "") (hp : st.apiKeys.length ≠ 0)
    (hsan : sanitizeHistory hist = .ok hs) :
    handleChat st (.str m) hist co (.error e) ro =
      handleBackendError st (.str m) e co ro
        [⟨st.genAIKey, selectModel co, hs, .str m⟩] := by
  simp [handleChat, jsTruthy, hm, hp, hsan]

theorem hbe_guard_false (st : ServerState) (m : JSVal) (e : String)
    (co : String → Bool) (ro : Except String String) (calls : List BackendCall)
    (hg : retryGuard e st = false) :
    handleBackendError st m e co ro calls =
      (st, .backendFail (errorMessageOf e) e, calls) := by
  simp [handleBackendError, hg]

theorem hbe_guard_true_ok (st : ServerState) (m : JSVal) (e : String)
    (co : String → Bool) (t : String) (calls : List BackendCall)
    (hg : retryGuard e st = true) (hco : co "gemini-2.5-flash" = true) :
    handleBackendError st m e co (.ok t) calls =
      (switchApiKey st, .ok t,
        calls ++ [⟨(switchApiKey st).genAIKey, "gemini-2.5-flash", [], m⟩]) := by
  simp [handleBackendError, hg, hco]

theorem hbe_guard_true_err (st : ServerState) (m : JSVal) (e : String)
    (co : String → Bool) (e2 : String) (calls : List BackendCall)
    (hg : retryGuard e st = true) (hco : co "gemini-2.5-flash" = true) :
    handleBackendError st m e co (.error e2) calls =
      (switchApiKey st, .backendFail (errorMessageOf e) e,
        calls ++ [⟨(switchApiKey st).genAIKey, "gemini-2.5-flash", [], m⟩]) := by
  simp [handleBackendError, hg, hco]

/-- C1: every backend error caught by the chat handler is classified by
case-sensitive substring search on the raw message, first match wins, in the
order API_KEY (invalid credential), then quota or 429 (quota exceeded), then
safety (content blocked), otherwise unknown; with a single-entry pool the
response carries exactly that classification with the raw message as
details. -/
theorem chat_error_classification (st : ServerState) (m e : String)
    (co : String → Bool) (ro : Except String String)
    (hm : m ≠ "") (hpool : st.apiKeys.length = 1) :
    (∀ msg, errorMessageOf msg = classMessage (classifySpec msg)) ∧
    handleChat st (.str m) [] co (.error e) ro =
      (st, .backendFail (classMessage (classifySpec e)) e,
        [⟨st.genAIKey, selectModel co, [], .str m⟩]) := by
  refine ⟨errMsg_eq_classMessage, ?_⟩
  have hp : st.apiKeys.length ≠ 0 := by omega
  have hg : retryGuard e st = false := by
    rw [retryGuard_eq]; simp [hpool]
  rw [handleChat_to_error st m [] [] co e ro hm hp rfl,
    hbe_guard_false _ _ _ _ _ _ hg, errMsg_eq_classMessage]

/-- C1 witness at a concrete quota-flavoured error with a one-key pool. -/
theorem chat_error_classification_witness :
    ("hello" : String) ≠ "" ∧ (initState (some "k1") none).apiKeys.length = 1 ∧
    handleChat (initState (some "k1") none) (.str "hello") [] (fun _ => true)
        (.error "quota hit") (.error "x") =
      (initState (some "k1") none,
        .backendFail "API quota exceeded. Please try again later." "quota hit",
        [⟨"k1", "gemini-2.5-flash", [], .str "hello"⟩]) :=
  ⟨by decide, by decide,
    ((chat_error_classification (initState (some "k1") none) "hello" "quota hit"
      (fun _ => true) (.error "x") (by decide) (by decide)).2).trans (by decide)⟩

/-- C2: a retry is attempted (a second backend call appears in the trace)
exactly when the classified error is invalid-credential or quota-exceeded
and the pool has more than one entry; with exactly one credential a quota
error is returned immediately as a failure with no retry attempt. -/
theorem retry_iff_eligible_and_multikey (st : ServerState) (m e : String)
    (ro : Except String String) (hm : m ≠ "") (hp : st.apiKeys.length ≠ 0) :
    (((handleChat st (.str m) [] (fun _ => true) (.error e) ro).2.2).length = 2 ↔
      ((classifySpec e = .invalidCredential ∨ classifySpec e = .quotaExceeded) ∧
        1 < st.apiKeys.length)) ∧
    (st.apiKeys.length = 1 → classifySpec e = .quotaExceeded →
      handleChat st (.str m) [] (fun _ => true) (.error e) ro =
        (st, .backendFail (errorMessageOf e) e,
          [⟨st.genAIKey, "gemini-2.5-flash", [], .str m⟩])) := by
  have hred := handleChat_to_error st m [] [] (fun _ => true) e ro hm hp rfl
  constructor
  · rw [hred]
    by_cases hg : retryGuard e st = true
    · have hg2 := hg
      rw [retryGuard_eq, Bool.and_eq_true, decide_eq_true_eq] at hg2
      rw [retryEligible_iff] at hg2
      cases ro with
      | ok t => rw [hbe_guard_true_ok _ _ _ _ _ _ hg rfl]; simpa using hg2
      | error e2 => rw [hbe_guard_true_err _ _ _ _ _ _ hg rfl]; simpa using hg2
    · have hgF : retryGuard e st = false := by
        revert hg; cases retryGuard e st <;> simp
      rw [hbe_guard_false _ _ _ _ _ _ hgF]
      have hno : ¬ ((classifySpec e = .invalidCredential ∨
          classifySpec e = .quotaExceeded) ∧ 1 < st.apiKeys.length) := by
        rintro ⟨h1, h2⟩
        have : retryGuard e st = true := by
          rw [retryGuard_eq]
          simp [(retryEligible_iff (classifySpec e)).mpr h1, h2]
        simp [this] at hgF
      simp [hno]
  · intro h1 hq
    have hgF : retryGuard e st = false := by
      rw [retryGuard_eq]; simp [h1]
    rw [hred, hbe_guard_false _ _ _ _ _ _ hgF]
    rfl

/-- C2 witness: one credential, a quota error, no retry — direct failure
with a single backend call in the trace. -/
theorem retry_iff_eligible_and_multikey_witness :
    ("hi" : String) ≠ "" ∧ (initState (some "k1") none).apiKeys.length ≠ 0 ∧
    handleChat (initState (some "k1") none) (.str "hi") [] (fun _ => true)
        (.error "429 quota exceeded") (.ok "t") =
      (initState (some "k1") none,
        .backendFail "API quota exceeded. Please try again later."
          "429 quota exceeded",
        [⟨"k1", "gemini-2.5-flash", [], .str "hi"⟩]) :=
  ⟨by decide, by decide,
    ((retry_iff_eligible_and_multikey (initState (some "k1") none) "hi"
        "429 quota exceeded" (.ok "t") (by decide) (by decide)).2
      (by decide) (by decide)).trans (by decide)⟩

/-- C3: when a retry triggers and succeeds, the cursor advances to the next
credential (wrapping) and stays there in the returned state, the client is
rebuilt with that credential, the retry call carries a fresh empty history
and the same message under only the primary model identifier, and the
response is the retry text (the original error is discarded). -/
theorem retry_success_behavior (st : ServerState) (m e t : String)
    (hist : List JSTurn) (hs : List MappedTurn) (co : String → Bool)
    (hm : m ≠ "") (hsan : sanitizeHistory hist = .ok hs)
    (he : classifySpec e = .invalidCredential ∨ classifySpec e = .quotaExceeded)
    (hp : 1 < st.apiKeys.length) (hco : co "gemini-2.5-flash" = true) :
    handleChat st (.str m) hist co (.error e) (.ok t) =
      (switchApiKey st, .ok t,
        [⟨st.genAIKey, selectModel co, hs, .str m⟩,
         ⟨(switchApiKey st).genAIKey, "gemini-2.5-flash", [], .str m⟩]) ∧
    (switchApiKey st).currentApiKeyIndex =
      (st.currentApiKeyIndex + 1) % st.apiKeys.length ∧
    (switchApiKey st).genAIKey =
      st.apiKeys.getD ((st.currentApiKeyIndex + 1) % st.apiKeys.length) "" ∧
    (switchApiKey st).apiKeys = st.apiKeys := by
  have hp0 : st.apiKeys.length ≠ 0 := by omega
  have hg : retryGuard e st = true := by
    rw [retryGuard_eq]
    simp [(retryEligible_iff (classifySpec e)).mpr he, hp]
  refine ⟨?_, ?_, ?_, ?_⟩
  · rw [handleChat_to_error st m hist hs co e (.ok t) hm hp0 hsan,
      hbe_guard_true_ok _ _ _ _ _ _ hg hco]
    simp
  · simp [switchApiKey, hp]
  · simp [switchApiKey, hp]
  · unfold switchApiKey; split <;> rfl

/-- C3 witness: two credentials, first call hits a 429, retry under the
second credential succeeds; the returned state sits on credential 2. -/
theorem retry_success_behavior_witness :
    (classifySpec "429" = .invalidCredential ∨
      classifySpec "429" = .quotaExceeded) ∧
    handleChat (initState (some "k1") (some "k2")) (.str "hi") []
        (fun _ => true) (.error "429") (.ok "pong") =
      (⟨["k1", "k2"], 1, "k2"⟩, .ok "pong",
        [⟨"k1", "gemini-2.5-flash", [], .str "hi"⟩,
         ⟨"k2", "gemini-2.5-flash", [], .str "hi"⟩]) :=
  ⟨by decide,
    ((retry_success_behavior (initState (some "k1") (some "k2")) "hi" "429"
        "pong" [] [] (fun _ => true) (by decide) rfl (by decide) (by decide)
        rfl).1).trans (by decide)⟩

/-- C4: when the retry itself throws, the caller gets HTTP 500 with the
original classification as error, the original raw message as details and
success false; the retry error (quantified, and absent from the result) is
neither re-classified nor surfaced. -/
theorem retry_failure_returns_original_error (st : ServerState) (m e e2 : String)
    (hist : List JSTurn) (hs : List MappedTurn) (co : String → Bool)
    (hm : m ≠ "") (hsan : sanitizeHistory hist = .ok hs)
    (he : classifySpec e = .invalidCredential ∨ classifySpec e = .quotaExceeded)
    (hp : 1 < st.apiKeys.length) (hco : co "gemini-2.5-flash" = true) :
    handleChat st (.str m) hist co (.error e) (.error e2) =
      (switchApiKey st, .backendFail (classMessage (classifySpec e)) e,
        [⟨st.genAIKey, selectModel co, hs, .str m⟩,
         ⟨(switchApiKey st).genAIKey, "gemini-2.5-flash", [], .str m⟩]) ∧
    statusOf (.backendFail (classMessage (classifySpec e)) e) = 500 ∧
    successOf (.backendFail (classMessage (classifySpec e)) e) = false := by
  have hp0 : st.apiKeys.length ≠ 0 := by omega
  have hg : retryGuard e st = true := by
    rw [retryGuard_eq]
    simp [(retryEligible_iff (classifySpec e)).mpr he, hp]
  refine ⟨?_, rfl, rfl⟩
  rw [handleChat_to_error st m hist hs co e (.error e2) hm hp0 hsan,
    hbe_guard_true_err _ _ _ _ _ _ hg hco, errMsg_eq_classMessage]
  simp

/-- C4 witness: the retry throws a safety-flavoured error, yet the response
carries the original invalid-credential classification and raw message. -/
theorem retry_failure_returns_original_error_witness :
    (classifySpec "API_KEY bad" = .invalidCredential ∨
      classifySpec "API_KEY bad" = .quotaExceeded) ∧
    handleChat (initState (some "k1") (some "k2")) (.str "hi") []
        (fun _ => true) (.error "API_KEY bad") (.error "safety block") =
      (⟨["k1", "k2"], 1, "k2"⟩,
        .backendFail
          "Invalid or missing API key. Please check your GEMINI_API_KEY in server/.env"
          "API_KEY bad",
        [⟨"k1", "gemini-2.5-flash", [], .str "hi"⟩,
         ⟨"k2", "gemini-2.5-flash", [], .str "hi"⟩]) :=
  ⟨by decide,
    ((retry_failure_returns_original_error (initState (some "k1") (some "k2"))
        "hi" "API_KEY bad" "safety block" [] [] (fun _ => true) (by decide) rfl
        (by decide) (by decide) rfl).1).trans (by decide)⟩

/-- C5 counterexample: a whitespace-only message is empty after trimming,
yet the handler does not return a 400 validation failure — it proceeds to
the backend and answers 200 with the backend text. -/
theorem whitespace_message_not_rejected :
    jsTrim " " = "" ∧
    handleChat (initState (some "k1") none) (.str " ") [] (fun _ => true)
        (.ok "hi") (.ok "x") =
      (initState (some "k1") none, .ok "hi",
        [⟨"k1", "gemini-2.5-flash", [], .str " "⟩]) ∧
    statusOf (.ok "hi") = 200 := by
  refine ⟨rfl, ?_, rfl⟩
  decide

/-- C5 amended: for every chat request whose message is falsy (missing,
null, or the empty string — the code tests message truthiness, not
emptiness after trimming), the handler returns a 400 validation failure
and makes no backend call. -/
theorem falsy_message_rejected (st : ServerState) (m : JSVal)
    (hist : List JSTurn) (co : String → Bool)
    (f r : Except String String) (hm : jsTruthy m = false) :
    handleChat st m hist co f r = (st, .validationFail, []) ∧
    statusOf .validationFail = 400 ∧ successOf .validationFail = false := by
  refine ⟨?_, rfl, rfl⟩
  simp [handleChat, hm]

/-- C5 amended witness: the empty-string message is rejected with 400 and
an empty backend-call trace. -/
theorem falsy_message_rejected_witness :
    jsTruthy (.str "") = false ∧
    (handleChat (initState (some "k1") none) (.str "") [] (fun _ => true)
        (.ok "a") (.ok "b") = (initState (some "k1") none, .validationFail, []) ∧
      statusOf .validationFail = 400 ∧ successOf .validationFail = false) :=
  ⟨by decide,
    falsy_message_rejected (initState (some "k1") none) (.str "") []
      (fun _ => true) (.ok "a") (.ok "b") (by decide)⟩

/-- C6: with a non-empty (truthy) message but an empty credential pool, the
handler answers a 500 configuration error and issues no backend call. -/
theorem empty_pool_config_error (st : ServerState) (m : JSVal)
    (hist : List JSTurn) (co : String → Bool) (f r : Except String String)
    (hm : jsTruthy m = true) (hp : st.apiKeys.length = 0) :
    handleChat st m hist co f r = (st, .configFail, []) ∧
    statusOf .configFail = 500 ∧ successOf .configFail = false := by
  refine ⟨?_, rfl, rfl⟩
  simp [handleChat, hm, hp]

/-- C6 witness: no environment keys at all, a non-empty message, and the
handler returns the configuration failure with an empty call trace. -/
theorem empty_pool_config_error_witness :
    jsTruthy (.str "hi") = true ∧ (initState none none).apiKeys.length = 0 ∧
    (handleChat (initState none none) (.str "hi") [] (fun _ => true)
        (.ok "a") (.ok "b") = (initState none none, .configFail, []) ∧
      statusOf .configFail = 500 ∧ successOf .configFail = false) :=
  ⟨by decide, by decide,
    empty_pool_config_error (initState none none) (.str "hi") []
      (fun _ => true) (.ok "a") (.ok "b") (by decide) (by decide)⟩

/-- C7: for histories whose selected text values are strings, sanitization
normalizes each role (user stays user, any other role becomes model), drops
the turns whose text is empty after trimming, and keeps the caller's order
— it equals the spec-worded map-then-filter. -/
theorem history_sanitized_as_specified (h : List JSTurn)
    (hstr : ∀ t ∈ h, (selectText t).isStr = true) :
    sanitizeHistory h = .ok (specSanitize h) :=
  sanitize_ok_of_strings h hstr

/-- C7 witness at the spec example: the empty user turn is dropped and the
unrecognized bot role normalizes to model. -/
theorem history_sanitized_as_specified_witness :
    (∀ t ∈ [JSTurn.mk (.str "user") (.str "") .undef,
            JSTurn.mk (.str "bot") (.str "hi") .undef],
      (selectText t).isStr = true) ∧
    sanitizeHistory [⟨.str "user", .str "", .undef⟩,
        ⟨.str "bot", .str "hi", .undef⟩] =
      .ok [⟨"model", .str "hi"⟩] :=
  ⟨by decide,
    (history_sanitized_as_specified
      [⟨.str "user", .str "", .undef⟩, ⟨.str "bot", .str "hi", .undef⟩]
      (by decide)).trans rfl⟩

/-- C9 counterexample: a turn whose content is the number 1 makes the
filter call trim on a non-string, so sanitization throws; the handler
catches it, classifies it as unknown, and no backend call is made — the
formatting is not total over arbitrarily shaped turns. -/
theorem numeric_content_throws :
    sanitizeHistory [⟨.str "user", .num 1, .undef⟩] =
      .error "msg.parts[0].text.trim is not a function" ∧
    handleChat (initState (some "k1") none) (.str "hi")
        [⟨.str "user", .num 1, .undef⟩] (fun _ => true) (.ok "t") (.ok "u") =
      (initState (some "k1") none,
        .backendFail "Failed to get response from AI"
          "msg.parts[0].text.trim is not a function", []) :=
  ⟨rfl, by decide⟩

/-- C9 amended: over turns whose selected text value is a string the
formatting is total; a falsy or absent content field falls back to the text
field, and a turn with both fields absent gets empty text and is filtered
out. (A truthy non-string field still causes a caught TypeError.) -/
theorem sanitization_total_on_strings (h : List JSTurn) (r tv : JSVal)
    (hstr : ∀ t ∈ h, (selectText t).isStr = true) :
    (∃ l, sanitizeHistory h = .ok l) ∧
    selectText ⟨r, .undef, tv⟩ = jsOr tv (.str "") ∧
    sanitizeHistory [⟨r, .undef, .undef⟩] = .ok [] := by
  refine ⟨⟨specSanitize h, sanitize_ok_of_strings h hstr⟩, ?_, ?_⟩
  · simp [selectText, jsOr, jsTruthy]
  · have htrim : jsTrim "" = "" := rfl
    simp [sanitizeHistory, formatMap, mapTurn, selectText, jsOr, jsTruthy,
      filterHistory, trimJS, htrim, bind, Except.bind, pure, Except.pure]

/-- C9 amended witness: a string-content turn sanitizes without a throw,
an absent content falls back to the text field, and an all-absent turn is
filtered out. -/
theorem sanitization_total_on_strings_witness :
    (∀ t ∈ [JSTurn.mk (.str "a") (.str "x") .undef],
      (selectText t).isStr = true) ∧
    ((∃ l, sanitizeHistory [JSTurn.mk (.str "a") (.str "x") .undef] = .ok l) ∧
      selectText ⟨.str "user", .undef, .str "b"⟩ = jsOr (.str "b") (.str "") ∧
      sanitizeHistory [⟨.str "user", .undef, .undef⟩] = .ok []) :=
  ⟨by decide,
    sanitization_total_on_strings [JSTurn.mk (.str "a") (.str "x") .undef]
      (.str "user") (.str "b") (by decide)⟩

/-- C8: the models endpoint carries the primary raw environment credential
in the fetch regardless of the pool cursor state, and answers the models
array with success on fetch success, or a 500 on fetch failure. -/
theorem models_uses_primary_key (k : String) (st st2 : ServerState)
    (fo : Except String (Option (List String))) (hk : k ≠ "") :
    (handleModels (some k) st fo).2 = some k ∧
    handleModels (some k) st fo = handleModels (some k) st2 fo ∧
    (∀ ms, fo = .ok ms →
      (handleModels (some k) st fo).1 = .ok (ms.getD []) ∧
      modelsStatus (handleModels (some k) st fo).1 = 200 ∧
      modelsSuccess (handleModels (some k) st fo).1 = true) ∧
    (∀ e, fo = .error e →
      modelsStatus (handleModels (some k) st fo).1 = 500 ∧
      modelsSuccess (handleModels (some k) st fo).1 = false) := by
  have ht : jsTruthy (envVal (some k)) = true := by simp [envVal, jsTruthy, hk]
  refine ⟨?_, rfl, ?_, ?_⟩
  · cases fo <;> simp [handleModels, ht]
  · rintro ms rfl
    refine ⟨?_, ?_, ?_⟩ <;>
      simp [handleModels, ht, modelsStatus, modelsSuccess]
  · rintro e rfl
    constructor <;> simp [handleModels, ht, modelsStatus, modelsSuccess]

/-- C8 witness: the pool cursor sits on the second credential, yet the
fetch carries the primary environment key and the models come back with
success. -/
theorem models_uses_primary_key_witness :
    ("k1" : String) ≠ "" ∧
    (handleModels (some "k1") ⟨["k1", "k2"], 1, "k2"⟩ (.ok (some ["m1"]))).2 =
      some "k1" ∧
    (handleModels (some "k1") ⟨["k1", "k2"], 1, "k2"⟩ (.ok (some ["m1"]))).1 =
      .ok ["m1"] :=
  ⟨by decide,
    (models_uses_primary_key "k1" ⟨["k1", "k2"], 1, "k2"⟩ ⟨["k1"], 0, "k1"⟩
      (.ok (some ["m1"])) (by decide)).1,
    (((models_uses_primary_key "k1" ⟨["k1", "k2"], 1, "k2"⟩ ⟨["k1"], 0, "k1"⟩
        (.ok (some ["m1"])) (by decide)).2.2.1 (some ["m1"]) rfl).1).trans rfl⟩

/-- The cursor invariant: the index is a valid position of the pool (or 0
for an empty pool). -/
def cursorInv (st : ServerState) : Prop :=
  st.currentApiKeyIndex < max 1 st.apiKeys.length

instance (st : ServerState) : Decidable (cursorInv st) := by
  unfold cursorInv; infer_instance

theorem switch_preserves_cursorInv (st : ServerState) (h : cursorInv st) :
    cursorInv (switchApiKey st) := by
  unfold cursorInv switchApiKey
  by_cases hp : st.apiKeys.length > 1
  · rw [if_pos hp]
    show (st.currentApiKeyIndex + 1) % st.apiKeys.length <
      max 1 st.apiKeys.length
    rw [max_eq_right (by omega : (1 : ℕ) ≤ st.apiKeys.length)]
    exact Nat.mod_lt _ (by omega)
  · rw [if_neg hp]; exact h

theorem hbe_state_cases (st : ServerState) (m : JSVal) (e : String)
    (co : String → Bool) (ro : Except String String)
    (calls : List BackendCall) :
    (handleBackendError st m e co ro calls).1 = st ∨
    (handleBackendError st m e co ro calls).1 = switchApiKey st := by
  unfold handleBackendError
  by_cases hg : retryGuard e st = true
  · by_cases hc : co "gemini-2.5-flash" = true
    · cases ro <;> simp [hg, hc]
    · simp [hg, hc]
  · simp [hg]

theorem handleChat_state_cases (st : ServerState) (m : JSVal)
    (hist : List JSTurn) (co : String → Bool) (f r : Except String String) :
    (handleChat st m hist co f r).1 = st ∨
    (handleChat st m hist co f r).1 = switchApiKey st := by
  cases hm : jsTruthy m with
  | false => left; simp [handleChat, hm]
  | true =>
    by_cases h2 : st.apiKeys.length = 0
    · left; simp [handleChat, hm, h2]
    · cases hsan : sanitizeHistory hist with
      | error e =>
        simpa [handleChat, hm, h2, hsan] using hbe_state_cases st m e co r []
      | ok hs =>
        cases f with
        | ok t => left; simp [handleChat, hm, h2, hsan]
        | error e =>
          simpa [handleChat, hm, h2, hsan] using
            hbe_state_cases st m e co r [⟨st.genAIKey, selectModel co, hs, m⟩]

/-- C10: the cursor starts at 0 and stays a valid index: switching is a
no-op on pools of at most one entry and advances modulo the size otherwise,
and a whole chat request preserves the invariant. -/
theorem cursor_always_valid (k1 k2 : Option String) (st : ServerState)
    (m : JSVal) (hist : List JSTurn) (co : String → Bool)
    (f r : Except String String) (h : cursorInv st) :
    cursorInv (initState k1 k2) ∧
    (st.apiKeys.length ≤ 1 → switchApiKey st = st) ∧
    (1 < st.apiKeys.length →
      (switchApiKey st).currentApiKeyIndex =
        (st.currentApiKeyIndex + 1) % st.apiKeys.length) ∧
    cursorInv (switchApiKey st) ∧
    cursorInv (handleChat st m hist co f r).1 := by
  refine ⟨?_, ?_, ?_, switch_preserves_cursorInv st h, ?_⟩
  · unfold cursorInv
    exact Nat.lt_of_lt_of_le Nat.one_pos (Nat.le_max_left 1 _)
  · intro hle; unfold switchApiKey; rw [if_neg (by omega)]
  · intro hgt; unfold switchApiKey; rw [if_pos hgt]
  · rcases handleChat_state_cases st m hist co f r with hc | hc
    · rw [hc]; exact h
    · rw [hc]; exact switch_preserves_cursorInv st h

/-- C10 witness at a two-key pool with the cursor on the second entry. -/
theorem cursor_always_valid_witness :
    cursorInv ⟨["a", "b"], 1, "b"⟩ ∧
    (cursorInv (initState (some "a") (some "b")) ∧
      ((⟨["a", "b"], 1, "b"⟩ : ServerState).apiKeys.length ≤ 1 →
        switchApiKey ⟨["a", "b"], 1, "b"⟩ = ⟨["a", "b"], 1, "b"⟩) ∧
      (1 < (⟨["a", "b"], 1, "b"⟩ : ServerState).apiKeys.length →
        (switchApiKey ⟨["a", "b"], 1, "b"⟩).currentApiKeyIndex =
          ((⟨["a", "b"], 1, "b"⟩ : ServerState).currentApiKeyIndex + 1) %
            (⟨["a", "b"], 1, "b"⟩ : ServerState).apiKeys.length) ∧
      cursorInv (switchApiKey ⟨["a", "b"], 1, "b"⟩) ∧
      cursorInv (handleChat ⟨["a", "b"], 1, "b"⟩ (.str "x") []
        (fun _ => true) (.ok "t") (.ok "u")).1) :=
  ⟨by decide,
    cursor_always_valid (some "a") (some "b") ⟨["a", "b"], 1, "b"⟩ (.str "x")
      [] (fun _ => true) (.ok "t") (.ok "u") (by decide)⟩
